import Mathlib

/-
Verification of the boot-notification script (startup_boot_email.py and
pythonEmailNotify.py): a shallow embedding of its data gathering,
HTML rendering and mail-sending logic, with theorems about the
claims of the specification.

The script shells out to an external query tool; the queries it builds
(level filter, a most-recent slice, an optional time-window filter,
an ascending sort by time, and a take-last step) are embedded as Lean
functions over an abstract event log, and the possibility that a query
execution or its JSON decoding fails is injected through explicit flags.
Timestamps are abstract UTC instants measured in seconds, so the
AddHours(-hrs) step of the source becomes a subtraction of hrs * 3600.
-/

/-- A system log event as surfaced by the event-log query: severity level,
creation time (abstract UTC instant in seconds), numeric event id, provider
name and message. -/
structure LogEvent where
  level : Int
  time : Int
  eventId : Int
  provider : String
  message : String
deriving DecidableEq, Repr

/-- The Level=1,2 (Critical/Error) filter used in every event query of
get_recent_errors_near. -/
def levelCriticalError (e : LogEvent) : Bool :=
  e.level == 1 || e.level == 2

/-- Insert an event into a list sorted ascending by time (helper of
sortByTime). -/
def insertByTime (e : LogEvent) : List LogEvent → List LogEvent
  | [] => [e]
  | x :: xs => if e.time ≤ x.time then e :: x :: xs else x :: insertByTime e xs

/-- Ascending sort by TimeCreated, modelling the `Sort-Object TimeCreated`
pipeline stage. Only membership and the ascending order matter to the
claims, so a plain insertion sort is used. -/
def sortByTime : List LogEvent → List LogEvent
  | [] => []
  | e :: es => insertByTime e (sortByTime es)

/-- The `Select-Object -Last k` pipeline stage: the last k elements. -/
def takeLast {α : Type} (k : Nat) (l : List α) : List α :=
  l.drop (l.length - k)

/-- The time-windowed query built by get_recent_errors_near when a reference
time is present: pull the newest 1000 Critical/Error events, keep those with
TimeCreated in [t − hoursBefore hours, t], sort ascending by time, keep the
last `limit`. The log list is ordered the way the query tool returns events,
newest first. -/
def windowedQuery (log : List LogEvent) (t hoursBefore : Int) (limit : Nat) :
    List LogEvent :=
  let start := t - hoursBefore * 3600
  let slice := (log.filter levelCriticalError).take 1000
  let inWindow := slice.filter (fun e => decide (e.time ≤ t ∧ start ≤ e.time))
  takeLast limit (sortByTime inWindow)

/-- The unbounded query built by get_recent_errors_near when no reference
time is present (and also used verbatim as its fallback): pull the newest
500 Critical/Error events, sort ascending by time, keep the last `limit`. -/
def recentQuery (log : List LogEvent) (limit : Nat) : List LogEvent :=
  takeLast limit (sortByTime ((log.filter levelCriticalError).take 500))

/-- The two shapes of event query that get_recent_errors_near can build. -/
inductive PSQuery where
  | windowed (t hoursBefore : Int) (limit : Nat)
  | recentOverall (limit : Nat)
deriving DecidableEq, Repr

/-- Semantics of one query against the event log. -/
def runQuery (log : List LogEvent) : PSQuery → List LogEvent
  | .windowed t h k => windowedQuery log t h k
  | .recentOverall k => recentQuery log k

/-- The environment a call to get_recent_errors_near runs in: the system
event log (newest first) and whether each of the two query executions
(run of the external tool plus JSON decoding) succeeds. -/
structure QueryEnv where
  log : List LogEvent
  primaryOk : Bool
  fallbackOk : Bool
deriving Repr

/-- Which query get_recent_errors_near builds first: windowed when a parsed
reference time is present, the most-recent-overall query otherwise. -/
def primaryQuery (time_iso : Option Int) (hours_before : Int) (limit : Nat) :
    PSQuery :=
  match time_iso with
  | some t => .windowed t hours_before limit
  | none => .recentOverall limit

/-- get_recent_errors_near with an execution trace: the result list plus the
queries attempted, in order. The primary query is attempted first; if its
execution or decoding fails the except-branch attempts the fallback
(most-recent-overall) query once; if that fails too the result is the empty
list. No failure escapes the function. -/
def get_recent_errors_near_traced (env : QueryEnv) (time_iso : Option Int)
    (hours_before : Int) (limit : Nat) : List LogEvent × List PSQuery :=
  let primary := primaryQuery time_iso hours_before limit
  if env.primaryOk then
    (runQuery env.log primary, [primary])
  else if env.fallbackOk then
    (runQuery env.log (.recentOverall limit), [primary, .recentOverall limit])
  else
    ([], [primary, .recentOverall limit])

/-- The result of get_recent_errors_near (trace projected away). -/
def get_recent_errors_near (env : QueryEnv) (time_iso : Option Int)
    (hours_before : Int) (limit : Nat) : List LogEvent :=
  (get_recent_errors_near_traced env time_iso hours_before limit).1

theorem mem_insertByTime {a e : LogEvent} {l : List LogEvent} :
    a ∈ insertByTime e l ↔ a = e ∨ a ∈ l := by
  induction l with
  | nil => simp [insertByTime]
  | cons x xs ih =>
    by_cases h : e.time ≤ x.time
    · simp [insertByTime, h]
    · simp only [insertByTime, if_neg h, List.mem_cons, ih]
      tauto

theorem mem_sortByTime {a : LogEvent} {l : List LogEvent} :
    a ∈ sortByTime l ↔ a ∈ l := by
  induction l with
  | nil => simp [sortByTime]
  | cons x xs ih => simp [sortByTime, mem_insertByTime, ih]

theorem mem_takeLast {α : Type} {a : α} {k : Nat} {l : List α}
    (h : a ∈ takeLast k l) : a ∈ l :=
  List.drop_subset _ _ h

/-- The event used by the witness of the amended claim C1. -/
def c1WitnessEvent : LogEvent := ⟨2, 100, 1, "Provider", "msg"⟩

/-- Environment for the witness of the amended claim C1: primary query
succeeds. -/
def c1WitnessEnv : QueryEnv := ⟨[c1WitnessEvent], true, true⟩

/-- An old event (time 0) outside the window of the C1 counterexample. -/
def c1CexEvent : LogEvent := ⟨2, 0, 7, "Provider", "old error"⟩

/-- Environment for the C1 counterexample: the primary (windowed) query
fails, the fallback (unbounded) query succeeds. -/
def c1CexEnv : QueryEnv := ⟨[c1CexEvent], false, true⟩

/-- C1 (counterexample): as stated the claim is false. With a crash-marker
reference time T = 1000000 present, but the primary windowed query failing,
get_recent_errors_near returns the fallback's unbounded result, which here
contains an event at time 0, far outside [T − 6 hours, T]. -/
theorem c1_counterexample :
    ¬ (∀ e ∈ get_recent_errors_near c1CexEnv (some 1000000) 6 10,
        1000000 - 6 * 3600 ≤ e.time ∧ e.time ≤ 1000000) := by
  decide

/-- C1 (amended): when the reference time T is present and the primary
windowed query succeeds (no fallback taken), every event returned by
get_recent_errors_near has its time in the closed interval
[T − hours_before hours, T]. -/
theorem c1_window_containment (env : QueryEnv) (t hours_before : Int)
    (limit : Nat) (e : LogEvent) (hok : env.primaryOk = true)
    (hmem : e ∈ get_recent_errors_near env (some t) hours_before limit) :
    t - hours_before * 3600 ≤ e.time ∧ e.time ≤ t := by
  unfold get_recent_errors_near get_recent_errors_near_traced at hmem
  rw [hok] at hmem
  simp only [if_true, primaryQuery, runQuery, windowedQuery] at hmem
  have h1 := mem_takeLast hmem
  rw [mem_sortByTime] at h1
  have h2 := List.of_mem_filter h1
  rw [decide_eq_true_iff] at h2
  exact ⟨h2.2, h2.1⟩

/-- Witness for c1_window_containment at a concrete environment: the single
returned event (time 100) lies inside [200 − 1 hour, 200]. -/
theorem c1_window_containment_witness :
    (200 : Int) - 1 * 3600 ≤ c1WitnessEvent.time ∧ c1WitnessEvent.time ≤ 200 :=
  c1_window_containment c1WitnessEnv 200 1 10 c1WitnessEvent rfl (by decide)

/-- C3: get_recent_errors_near is total (never raises to its caller) and its
result and its query trace are fully characterised: the primary query's
result when it succeeds; otherwise the result of exactly one fallback
(most-recent-overall) attempt; the empty list when both fail. The trace
shows at most one fallback attempt is ever made. -/
theorem c3_fallback_characterization (env : QueryEnv) (time_iso : Option Int)
    (hours_before : Int) (limit : Nat) :
    get_recent_errors_near env time_iso hours_before limit =
      (if env.primaryOk then
        runQuery env.log (primaryQuery time_iso hours_before limit)
       else if env.fallbackOk then runQuery env.log (PSQuery.recentOverall limit)
       else [])
    ∧ (get_recent_errors_near_traced env time_iso hours_before limit).2 =
      (if env.primaryOk then [primaryQuery time_iso hours_before limit]
       else [primaryQuery time_iso hours_before limit,
             PSQuery.recentOverall limit]) := by
  unfold get_recent_errors_near get_recent_errors_near_traced
  by_cases h1 : env.primaryOk <;> by_cases h2 : env.fallbackOk <;>
    simp [h1, h2]

/-- Whether a query is the unbounded most-recent-overall query. -/
def isRecentOverall : PSQuery → Bool
  | .recentOverall _ => true
  | .windowed _ _ _ => false

/-- C4: with no reference time (crash marker absent) every query
get_recent_errors_near attempts is the unbounded most-recent-overall query
— the time-windowed query is never built — and the result is that query's
result whenever either attempt succeeds. -/
theorem c4_no_window_when_marker_absent (env : QueryEnv) (hours_before : Int)
    (limit : Nat) :
    ((get_recent_errors_near_traced env none hours_before limit).2.all
        isRecentOverall = true)
    ∧ get_recent_errors_near env none hours_before limit =
        (if env.primaryOk || env.fallbackOk then
          runQuery env.log (PSQuery.recentOverall limit)
         else []) := by
  unfold get_recent_errors_near get_recent_errors_near_traced
  by_cases h1 : env.primaryOk <;> by_cases h2 : env.fallbackOk <;>
    simp [h1, h2, primaryQuery, isRecentOverall]

/-- The environment variables the script reads for mail configuration:
EMAIL_ADDRESS, EMAIL_PASSWORD, MAIN_EMAIL_ADDRESS. `none` models an unset
variable. -/
structure EnvVars where
  email_address : Option String
  email_password : Option String
  main_email_address : Option String
deriving Repr

/-- Python truthiness of an optional string: unset and the empty string are
falsy. -/
def truthy : Option String → Bool
  | none => false
  | some s => s != ""

/-- Python's `a or b` on optional strings. -/
def pyOr (a b : Option String) : Option String :=
  if truthy a then a else b

/-- The EmailSender object of pythonEmailNotify: SMTP details plus an
optional default recipient. -/
structure EmailSender where
  smtp_server : String
  port : Nat
  login : String
  password : String
  default_recipient : Option String
deriving DecidableEq, Repr

/-- build_sender_from_env: an EmailSender for smtp.gmail.com:587 when both
EMAIL_ADDRESS and EMAIL_PASSWORD are truthy (recipient MAIN_EMAIL_ADDRESS,
falling back to EMAIL_ADDRESS), and None otherwise. -/
def build_sender_from_env (env : EnvVars) : Option EmailSender :=
  let addr := env.email_address
  let pw := env.email_password
  let rcpt := pyOr env.main_email_address addr
  if truthy addr && truthy pw then
    some ⟨"smtp.gmail.com", 587, addr.getD "", pw.getD "", rcpt⟩
  else
    none

/-- Outcome of EmailSender.sendEmail. `sent b` is a normal return, with
b recording whether a transport (SMTP) failure occurred and was swallowed
by the try/except inside sendEmail; `raisedValueError` is the ValueError
raised when neither an explicit nor a default recipient exists. -/
inductive SendResult where
  | sent (transportFailed : Bool)
  | raisedValueError
deriving DecidableEq, Repr

/-- EmailSender.sendEmail: raises ValueError when recipient and
default_recipient are both None; otherwise it attempts the SMTP delivery
inside a try/except that catches every transport failure and only prints it,
so the method returns normally either way. -/
def sendEmail (sender : EmailSender) (recipient : Option String)
    (transportFails : Bool) : SendResult :=
  if recipient.isNone && sender.default_recipient.isNone then
    .raisedValueError
  else
    .sent transportFails

/-- EmailSender.sendException: formats the exception report and delegates to
sendEmail with the same recipient resolution. -/
def sendException (sender : EmailSender) (recipient : Option String)
    (transportFails : Bool) : SendResult :=
  sendEmail sender recipient transportFails

/-- notify_exception of the script: builds a sender from the environment and,
when one exists, makes exactly one sendException attempt, swallowing every
secondary failure. The returned number counts the sendException attempts
made. -/
def notify_exception (env : EnvVars) : Nat :=
  match build_sender_from_env env with
  | some _ => 1
  | none => 0

/-- Outcome of a run of the script at the process boundary. -/
inductive RunResult where
  | ok
  | raised (msg : String)
deriving DecidableEq, Repr

/-- The send phase of main (the optional DEBUG probe email and the primary
boot-email send with its except-handler) together with the top-level
`except Exception` handler of the `__main__` block. Returns the process
outcome and how many failure-report (sendException) attempts were made.
When build_sender_from_env yields None, main raises SystemExit, which
`except Exception` does not catch, so no attempt is made. When the primary
send raises, main's handler calls notify_exception once and re-raises, and
the top-level handler then calls notify_exception again before the process
exits. -/
def mainSendPhase (env : EnvVars) (debug transportFails : Bool) :
    RunResult × Nat :=
  match build_sender_from_env env with
  | none =>
    (.raised "SystemExit: EMAIL_ADDRESS/EMAIL_PASSWORD not set in environment.", 0)
  | some sender =>
    let probeNotifies :=
      if debug then
        match sendEmail sender none transportFails with
        | .raisedValueError => notify_exception env
        | .sent _ => 0
      else 0
    match sendEmail sender none transportFails with
    | .sent _ => (.ok, probeNotifies)
    | .raisedValueError =>
      (.raised "ValueError: Recipient email must be specified.",
       probeNotifies + notify_exception env + notify_exception env)

/-- Concrete environment for claim C2: credentials set, recipient defaulted. -/
def c2Env : EnvVars := ⟨some "user@example.com", some "pw", none⟩

/-- The sender build_sender_from_env constructs from c2Env. -/
def c2Sender : EmailSender :=
  ⟨"smtp.gmail.com", 587, "user@example.com", "pw", some "user@example.com"⟩

/-- C2 (counterexample): as stated the claim is false. Simulating a delivery
(transport) failure during the primary send, the run makes zero
failure-report attempts — not exactly one — and ends with a normal (ok)
process outcome, because sendEmail swallows the transport error internally. -/
theorem c2_counterexample :
    ¬ ((mainSendPhase c2Env false true).2 = 1
        ∧ (mainSendPhase c2Env false true).1 ≠ RunResult.ok) := by
  decide

theorem build_sender_default_recipient_isSome (env : EnvVars)
    (sender : EmailSender) (h : build_sender_from_env env = some sender) :
    sender.default_recipient.isNone = false := by
  unfold build_sender_from_env at h
  by_cases hc : truthy env.email_address && truthy env.email_password
  · rw [if_pos hc] at h
    cases h
    have ha : truthy env.email_address = true := by
      cases Bool.and_eq_true_iff.mp hc with
      | intro l r => exact l
    show (pyOr env.main_email_address env.email_address).isNone = false
    unfold pyOr
    by_cases hm : truthy env.main_email_address
    · rw [if_pos hm]
      cases hme : env.main_email_address with
      | none => rw [hme] at hm; simp [truthy] at hm
      | some s => simp
    · rw [if_neg hm]
      cases hae : env.email_address with
      | none => rw [hae] at ha; simp [truthy] at ha
      | some s => simp
  · rw [if_neg hc] at h
    cases h

/-- C2 (amended): a delivery (transport) failure during the primary boot-email
send is swallowed inside EmailSender.sendEmail — the method returns normally
after reporting it — so main makes no failure-report attempt and the process
ends successfully; no error propagates to the process boundary. -/
theorem c2_transport_failure_swallowed (env : EnvVars) (debug : Bool)
    (sender : EmailSender) (h : build_sender_from_env env = some sender) :
    mainSendPhase env debug true = (RunResult.ok, 0)
    ∧ sendEmail sender none true = SendResult.sent true := by
  have hd := build_sender_default_recipient_isSome env sender h
  have hsend : sendEmail sender none true = SendResult.sent true := by
    unfold sendEmail
    simp [hd]
  refine ⟨?_, hsend⟩
  unfold mainSendPhase
  rw [h]
  cases debug <;> simp [hsend]

/-- Witness for c2_transport_failure_swallowed at the concrete environment
c2Env. -/
theorem c2_transport_failure_swallowed_witness :
    mainSendPhase c2Env false true = (RunResult.ok, 0)
    ∧ sendEmail c2Sender none true = SendResult.sent true :=
  c2_transport_failure_swallowed c2Env false c2Sender (by decide)

/-- The subject line main builds for the boot email. -/
def subjectLine (machine : String) (ips : List String) : String :=
  "[BOOT] " ++ machine ++ " is online — " ++
    (if ips.isEmpty then "no IPs" else String.intercalate ", " ips)

/-- C5: the subject line for machine HOST1 is exactly
"[BOOT] HOST1 is online — 10.0.0.5" with the one-element IPv4 list, and
"[BOOT] HOST1 is online — no IPs" with the empty list. -/
theorem c5_subject_line :
    subjectLine "HOST1" ["10.0.0.5"] = "[BOOT] HOST1 is online — 10.0.0.5"
    ∧ subjectLine "HOST1" [] = "[BOOT] HOST1 is online — no IPs" := by
  constructor <;> rfl

/-- Python's whitespace test for str.strip. -/
def isPySpace (c : Char) : Bool :=
  c == ' ' || c == '\t' || c == '\n' || c == '\r' || c == '\x0b' || c == '\x0c'

/-- Drop leading whitespace characters. -/
def dropLeadingWs : List Char → List Char
  | [] => []
  | c :: cs => if isPySpace c then dropLeadingWs cs else c :: cs

/-- Python str.strip on a detected output line: drop whitespace at both
ends. -/
def pyStrip (s : String) : String :=
  String.mk (List.reverse (dropLeadingWs (List.reverse (dropLeadingWs s.data))))

/-- Split a character list at newline characters (helper of splitLines). -/
def splitNlAux : List Char → List Char → List String
  | acc, [] => [String.mk acc.reverse]
  | acc, c :: cs =>
    if c == '\n' then String.mk acc.reverse :: splitNlAux [] cs
    else splitNlAux (c :: acc) cs

/-- Python str.splitlines over newline characters. Carriage returns left by
Windows line endings survive here and are removed by the strip that
follows, and blank segments (including the one this produces for the empty
string where Python produces no segment at all) are dropped by the filter
that follows, so the detected list below agrees with the source. -/
def splitLines (s : String) : List String :=
  splitNlAux [] s.data

/-- The detected-address list get_local_ipv4_list builds from the raw
detection output: split into lines, strip each, drop blanks. -/
def parseDetected (out : String) : List String :=
  ((splitLines out).map pyStrip).filter (fun l => l != "")

/-- The fallback list get_local_ipv4_list starts from: a one-element list
holding MACHINE_IP when that variable is set and non-empty, else empty. -/
def envFallbackIps (machine_ip : Option String) : List String :=
  if truthy machine_ip then [machine_ip.getD ""] else []

/-- get_local_ipv4_list: start from the MACHINE_IP fallback; attempt live
detection (the Except argument models the external query: error = the
detection raised). On detection failure keep the fallback; on success the
detected list replaces the fallback only when it is non-empty (the source
guards the overwrite with `if detected:`). -/
def get_local_ipv4_list (machine_ip : Option String)
    (psResult : Except String String) : List String :=
  let ips := envFallbackIps machine_ip
  match psResult with
  | .error _ => ips
  | .ok out =>
    let detected := parseDetected out
    if detected.isEmpty then ips else detected

/-- C6 (counterexample): as stated the claim is false. A live detection that
succeeds but finds no addresses (empty output, so the detected list is
empty) does not replace the fallback: the function returns the MACHINE_IP
fallback list, not the successful detection's (empty) result. -/
theorem c6_counterexample :
    get_local_ipv4_list (some "10.0.0.9") (Except.ok "") = ["10.0.0.9"]
    ∧ parseDetected "" = []
    ∧ ["10.0.0.9"] ≠ ([] : List String) := by
  decide

/-- C6 (amended): get_local_ipv4_list starts from the MACHINE_IP fallback
(one-element when set and non-empty, else empty); on detection failure it
returns exactly that fallback; on detection success the detected list
replaces the fallback only when it is non-empty, otherwise the fallback is
kept. -/
theorem c6_fallback_characterization (machine_ip : Option String)
    (res : Except String String) :
    get_local_ipv4_list machine_ip res =
      (match res with
       | .error _ => envFallbackIps machine_ip
       | .ok out =>
         if (parseDetected out).isEmpty then envFallbackIps machine_ip
         else parseDetected out) := by
  cases res <;> rfl

/-- C9: when EMAIL_ADDRESS is set but EMAIL_PASSWORD is unset,
build_sender_from_env returns None — never a partially-configured sender. -/
theorem c9_missing_password_no_client (env : EnvVars) (a : String)
    (haddr : env.email_address = some a) (hpw : env.email_password = none) :
    build_sender_from_env env = none := by
  unfold build_sender_from_env
  rw [hpw]
  simp [truthy]

/-- Witness for c9_missing_password_no_client at a concrete environment. -/
theorem c9_missing_password_no_client_witness :
    build_sender_from_env ⟨some "a@b.c", none, none⟩ = none :=
  c9_missing_password_no_client ⟨some "a@b.c", none, none⟩ "a@b.c" rfl rfl

/-- fmt_dt_local: render a UTC ISO-8601 string in the host's local timezone.
The function argument abstracts the try-block of the source — replace the
trailing Z, parse, convert to the local zone and strftime — returning none
when any step raises. On none the original string is returned unchanged, so
the function never raises. -/
def fmt_dt_local (pyParseFormat : String → Option String) (iso_utc : String) :
    String :=
  match pyParseFormat iso_utc with
  | some s => s
  | none => iso_utc

/-- C8: for every input string the parse-and-format step cannot handle,
fmt_dt_local returns the input unchanged; being a total function of its
arguments it never raises. -/
theorem c8_unparsable_identity (pyParseFormat : String → Option String)
    (s : String) (h : pyParseFormat s = none) :
    fmt_dt_local pyParseFormat s = s := by
  unfold fmt_dt_local
  rw [h]

/-- Witness for c8_unparsable_identity: a parser that rejects everything,
applied to the string "not-a-date". -/
theorem c8_unparsable_identity_witness :
    fmt_dt_local (fun _ => none) "not-a-date" = "not-a-date" :=
  c8_unparsable_identity (fun _ => none) "not-a-date" rfl

/-- A parsed JSON value as produced by the output-decoding step. -/
inductive Json where
  | null
  | bool (b : Bool)
  | num (n : Int)
  | str (s : String)
  | arr (elems : List Json)
  | obj (fields : List (String × Json))

/-- Python truthiness of a decoded JSON value: None, False, zero, the empty
string, list and object are falsy. -/
def jsonTruthy : Json → Bool
  | .null => false
  | .bool b => b
  | .num n => n != 0
  | .str s => s != ""
  | .arr xs => !xs.isEmpty
  | .obj kvs => !kvs.isEmpty

/-- dict.get on a decoded JSON object. -/
def jsonGet (kvs : List (String × Json)) (key : String) : Option Json :=
  match kvs with
  | [] => none
  | (k, v) :: rest => if k == key then some v else jsonGet rest key

/-- get_latest_crash_marker from the decoded query output onward: empty
output is None; a decoding failure is None; a value that is not an object
is None; an object whose TimeCreated entry is absent or falsy is None;
otherwise the object itself is returned. The function argument abstracts
json.loads, none modelling a JSONDecodeError. (A failure of the query
execution itself, before any output exists, propagates out of the source
function and is outside this model.) -/
def get_latest_crash_marker (parseJson : String → Option Json) (out : String) :
    Option (List (String × Json)) :=
  if out == "" then none
  else
    match parseJson out with
    | some (Json.obj kvs) =>
      if jsonTruthy ((jsonGet kvs "TimeCreated").getD Json.null) then some kvs
      else none
    | some _ => none
    | none => none

/-- C10: whenever get_latest_crash_marker returns a record, the query output
was non-empty and decoded to exactly that object, and the object holds a
truthy (present, non-empty) TimeCreated entry — so any returned crash
marker is usable as a reference time. By totality, every other case (empty
output, decode failure, non-object value, absent or empty TimeCreated)
yields None. -/
theorem c10_marker_has_time (parseJson : String → Option Json) (out : String)
    (kvs : List (String × Json))
    (h : get_latest_crash_marker parseJson out = some kvs) :
    out ≠ "" ∧ parseJson out = some (Json.obj kvs)
    ∧ jsonTruthy ((jsonGet kvs "TimeCreated").getD Json.null) = true := by
  unfold get_latest_crash_marker at h
  by_cases ho : out = ""
  · simp [ho] at h
  · have hbeq : (out == "") = false := by
      simp [ho]
    rw [hbeq] at h
    simp only [Bool.false_eq_true, if_false] at h
    refine ⟨ho, ?_⟩
    cases hp : parseJson out with
    | none => rw [hp] at h; cases h
    | some j =>
      rw [hp] at h
      cases j with
      | obj kvs2 =>
        dsimp only at h
        by_cases ht : jsonTruthy ((jsonGet kvs2 "TimeCreated").getD Json.null)
        · rw [if_pos ht] at h
          cases h
          exact ⟨rfl, ht⟩
        · rw [if_neg ht] at h
          cases h
      | null => cases h
      | bool b => cases h
      | num n => cases h
      | str s => cases h
      | arr xs => cases h

/-- The json.loads model used by the C10 witness: every output decodes to an
object with a non-empty TimeCreated string. -/
def c10Parse : String → Option Json :=
  fun _ => some (Json.obj [("TimeCreated", Json.str "2024-03-01T00:00:00Z")])

/-- Witness for c10_marker_has_time at a concrete output string and decoder. -/
theorem c10_marker_has_time_witness :
    "out" ≠ "" ∧ c10Parse "out" =
      some (Json.obj [("TimeCreated", Json.str "2024-03-01T00:00:00Z")])
    ∧ jsonTruthy ((jsonGet [("TimeCreated", Json.str "2024-03-01T00:00:00Z")]
        "TimeCreated").getD Json.null) = true :=
  c10_marker_has_time c10Parse "out"
    [("TimeCreated", Json.str "2024-03-01T00:00:00Z")] rfl

/-- An error event as make_html consumes it: a decoded JSON record whose
fields may be absent (the source reads them with dict.get defaults). The
source key Id is embedded as eventId. -/
structure EventDict where
  timeCreated : Option String
  eventId : Option Int
  providerName : Option String
  message : Option String

/-- The message clean-up of make_html: default the absent message to the
empty string, collapse newlines to spaces, strip. -/
def cleanMessage (o : Option String) : String :=
  pyStrip (((o.getD "").replace "\r" " ").replace "\n" " ")

/-- How an f-string renders an optional value read with a plain dict.get:
an absent value prints as None. -/
def renderOptStr (o : Option String) : String :=
  match o with
  | none => "None"
  | some s => s

/-- How an f-string renders dict.get of a numeric field with default '':
absent prints as the empty string, a number in decimal. -/
def renderOptInt (o : Option Int) : String :=
  match o with
  | none => ""
  | some n => toString n

/-- How an f-string renders dict.get of a numeric field with no default:
absent prints as None. -/
def renderOptIntNone (o : Option Int) : String :=
  match o with
  | none => "None"
  | some n => toString n

/-- One row of the events table of make_html. -/
def eventRow (fmtLocal : String → String) (ev : EventDict) : String :=
  "<tr>" ++
  "<td>" ++ ev.timeCreated.getD "" ++ "</td>" ++
  "<td>" ++ fmtLocal (ev.timeCreated.getD "") ++ "</td>" ++
  "<td>" ++ renderOptInt ev.eventId ++ "</td>" ++
  "<td>" ++ ev.providerName.getD "" ++ "</td>" ++
  "<td><pre style='white-space:pre-wrap'>" ++ cleanMessage ev.message ++
  "</pre></td>" ++
  "</tr>"

/-- The rows string make_html accumulates over the error events. -/
def rowsHtml (fmtLocal : String → String) (errors : List EventDict) : String :=
  errors.foldl (fun acc ev => acc ++ eventRow fmtLocal ev) ""

/-- The placeholder row emitted when the rows string is empty. -/
def placeholderRow : String := "<tr><td colspan='5'>(none)</td></tr>"

/-- The fixed header row of the events table. -/
def headerRow : String :=
  "<tr><th>UTC</th><th>Local</th><th>ID</th><th>Provider</th><th>Message</th></tr>"

/-- The tbody content: the accumulated rows, or the placeholder when they
are empty (the source's `rows or placeholder`). -/
def tbodyHtml (fmtLocal : String → String) (errors : List EventDict) : String :=
  let rows := rowsHtml fmtLocal errors
  if rows == "" then placeholderRow else rows

/-- The events table of make_html. -/
def eventsTableHtml (fmtLocal : String → String) (errors : List EventDict) :
    String :=
  "<table border=\"1\" cellpadding=\"6\" cellspacing=\"0\">\n      <thead>\n        "
    ++ headerRow ++ "\n      </thead>\n      <tbody>"
    ++ tbodyHtml fmtLocal errors ++ "</tbody>\n    </table>"

/-- The crash-marker block of make_html: empty when no marker is present. -/
def crashBlock (fmtLocal : String → String) (crash : Option EventDict) :
    String :=
  match crash with
  | none => ""
  | some c =>
    "\n        <h3>Most recent crash marker</h3>\n        <ul>\n          <li><b>Time (UTC):</b> "
      ++ renderOptStr c.timeCreated
      ++ "</li>\n          <li><b>Time (Local):</b> "
      ++ fmtLocal (c.timeCreated.getD "")
      ++ "</li>\n          <li><b>Event ID:</b> "
      ++ renderOptIntNone c.eventId
      ++ "</li>\n          <li><b>Provider:</b> "
      ++ renderOptStr c.providerName
      ++ "</li>\n          <li><b>Message:</b><br><pre style=\"white-space:pre-wrap\">"
      ++ cleanMessage c.message
      ++ "</pre></li>\n        </ul>\n        "

/-- Everything make_html emits before the events table. -/
def htmlHead (fmtLocal : String → String) (nowStr machine : String)
    (ips : List String) (boot_iso : String) (crash : Option EventDict) :
    String :=
  let ip_html :=
    if ips.isEmpty then "(none detected)" else String.intercalate "<br>" ips
  let boot_local := fmtLocal boot_iso
  "\n    <h2>PC Boot Notification</h2>\n    <p><b>Machine:</b> " ++ machine
    ++ "</p>\n    <p><b>Local IPv4:</b><br>" ++ ip_html
    ++ "</p>\n    <p><b>Boot Time (UTC):</b> " ++ boot_iso
    ++ "<br>\n       <b>Boot Time (Local):</b> " ++ boot_local
    ++ "</p>\n    <p><i>Startup detected at:</i> " ++ nowStr ++ "</p>\n    "
    ++ crashBlock fmtLocal crash
    ++ "\n    <h3>Recent Critical/Error events</h3>\n    "

/-- make_html: the boot-report HTML document. fmtLocal is fmt_dt_local with
its parser fixed, and nowStr the generation timestamp the source interpolates. -/
def make_html (fmtLocal : String → String) (nowStr machine : String)
    (ips : List String) (boot_iso : String) (crash : Option EventDict)
    (errors : List EventDict) : String :=
  htmlHead fmtLocal nowStr machine ips boot_iso crash
    ++ eventsTableHtml fmtLocal errors ++ "\n    "

/-- Whether the first list starts with the second. -/
def leadsWith : List Char → List Char → Bool
  | [], _ => true
  | _ :: _, [] => false
  | p :: ps, c :: cs => p == c && leadsWith ps cs

/-- The number of (possibly overlapping) occurrences of a pattern in a
character list. -/
def countOccs (pat : List Char) : List Char → Nat
  | [] => 0
  | c :: rest => (if leadsWith pat (c :: rest) then 1 else 0) + countOccs pat rest

/-- The number of occurrences of a pattern string in a string. -/
def countSubstr (s pat : String) : Nat :=
  countOccs pat.data s.data

/-- C7: for the empty error list, the tbody of the events table produced by
make_html is exactly the placeholder row — one row (one tr), one cell
spanning 5 columns, holding "(none)" — and the header row has exactly 5
columns; make_html embeds that table after the head section. -/
theorem c7_empty_events_placeholder (fmtLocal : String → String)
    (nowStr machine boot_iso : String) (ips : List String)
    (crash : Option EventDict) :
    tbodyHtml fmtLocal [] = placeholderRow
    ∧ countSubstr placeholderRow "<tr>" = 1
    ∧ countSubstr placeholderRow "<td" = 1
    ∧ countSubstr placeholderRow "colspan='5'" = 1
    ∧ countSubstr placeholderRow "(none)" = 1
    ∧ countSubstr headerRow "<th>" = 5
    ∧ make_html fmtLocal nowStr machine ips boot_iso crash [] =
        htmlHead fmtLocal nowStr machine ips boot_iso crash
          ++ ("<table border=\"1\" cellpadding=\"6\" cellspacing=\"0\">\n      <thead>\n        "
              ++ headerRow ++ "\n      </thead>\n      <tbody>"
              ++ placeholderRow ++ "</tbody>\n    </table>")
          ++ "\n    " := by
  refine ⟨rfl, ?_, ?_, ?_, ?_, ?_, rfl⟩ <;> decide
